import Mathlib

/-!
Shallow embedding of the Ranging-Tripwire library (Tripwire.h / Tripwire.cpp).

Modelling conventions:
- C `long` values are modelled as `Int`; C `int` values as `Int`.  Fixed-width
  wraparound of these signed types plays no role in the verified claims and is
  not modelled.
- C `unsigned long` values wrap modulo 2^32 on the target platform; the
  timestamps and durations (where the subtraction `millis() - event_start_time`
  relies on this) and the event counter `num_detections` (whose increment
  `num_detections++` wraps after 2^32 confirmed events) are all modelled as
  naturals reduced modulo `UMOD = 2^32`.
- The external range function (a nullable function pointer) is modelled as an
  `Option R` stored in the state together with an explicit stream
  `readings : Nat → Int` giving the values returned by successive invocations
  of that external function.  Event callbacks (nullable function pointers) are
  opaque `Option C` values; an update reports whether each callback was
  invoked as a `Bool`.
- `update` in the C source dereferences `_get_range` without a null check
  (unlike `calibrate`); a call with no range source configured is therefore
  modelled as `none` (the call does not complete normally), while every
  guarded, well-defined execution returns `some` of the new state together
  with the two callback-invocation flags.
- C truncating division `/` is `Int.tdiv`; the Arduino `abs` macro is `|·|`.
-/

/-- Modulus of the 32-bit `unsigned long` arithmetic used for timestamps
(the literal is 2^32). -/
def UMOD : Nat := 4294967296

/-- State of a `Tripwire` object (all fields of the C++ class).
`R` is the type of the stored range-function value, `C` the type of the
stored callback values; both are only stored and tested for presence. -/
structure Tripwire (R C : Type) where
  is_calibrated : Bool
  num_detections : Nat
  distance : Int
  baseline_distance : Int
  baseline_variance : Int
  distance_threshold : Int
  min_baseline_reads : Int
  max_baseline_reads : Int
  max_baseline_variance : Int
  baseline_read_interval : Int
  min_successive_detections : Int
  last_event_width : Nat
  event_start_time : Nat
  eventStartCB : Option C
  eventEndCB : Option C
  getRange : Option R
  successive_detections : Int
deriving DecidableEq

/-- Default distance threshold (`DEFAULT_DISTANCE_THRESHOLD`). -/
def DEFAULT_DISTANCE_THRESHOLD : Int := 70

/-- Default minimum number of baseline reads (`DEFAULT_MIN_BASELINE_READS`). -/
def DEFAULT_MIN_BASELINE_READS : Int := 20

/-- Default maximum number of baseline reads (`DEFAULT_MAX_BASELINE_READS`). -/
def DEFAULT_MAX_BASELINE_READS : Int := 40

/-- Default maximum baseline variance (`DEFAULT_MAX_BASELINE_VARIANCE`). -/
def DEFAULT_MAX_BASELINE_VARIANCE : Int := DEFAULT_DISTANCE_THRESHOLD

/-- Default delay between calibration reads (`DEFAULT_BASELINE_READ_INTERVAL`). -/
def DEFAULT_BASELINE_READ_INTERVAL : Int := 100

/-- Default debounce depth (`DEFAULT_MINIMUM_SUCCESSIVE_DETECTIONS`). -/
def DEFAULT_MINIMUM_SUCCESSIVE_DETECTIONS : Int := 0

/-- Constructor `Tripwire::Tripwire(range_function get_range)`.
The members the constructor leaves untouched (`_event_start`, `_event_end`,
the event times and counters) are modelled as zero-initialised, as for an
Arduino object with static storage duration. -/
def Tripwire.init (get_range : Option R) : Tripwire R C where
  is_calibrated := false
  num_detections := 0
  distance := 0
  baseline_distance := 0
  baseline_variance := 0
  distance_threshold := DEFAULT_DISTANCE_THRESHOLD
  min_baseline_reads := DEFAULT_MIN_BASELINE_READS
  max_baseline_reads := DEFAULT_MAX_BASELINE_READS
  max_baseline_variance := DEFAULT_MAX_BASELINE_VARIANCE
  baseline_read_interval := DEFAULT_BASELINE_READ_INTERVAL
  min_successive_detections := DEFAULT_MINIMUM_SUCCESSIVE_DETECTIONS
  last_event_width := 0
  event_start_time := 0
  eventStartCB := none
  eventEndCB := none
  getRange := get_range
  successive_detections := 0

/-- Body of the `while` loop of `Tripwire::calibrate`.  Arguments:
the reading stream, `min_baseline_reads`, `max_baseline_variance`, the
remaining fuel (which encodes the `baseline_reads < max_baseline_reads`
conjunct: fuel = `max_baseline_reads - baseline_reads`), the index of the
next stream element, the current `baseline_reads`, `baseline_distance` and
`baseline_variance`.  Returns the final `(baseline_reads, baseline_distance,
baseline_variance)`. -/
def calibLoop (s : Nat → Int) (minr maxv : Int) :
    Nat → Nat → Int → Int → Int → Int × Int × Int
  | 0, _, reads, bd, bv => (reads, bd, bv)
  | fuel + 1, idx, reads, bd, bv =>
    if reads < minr ∨ bv > maxv then
      let new_range := s idx
      let new_variance := |bd - new_range|
      calibLoop s minr maxv fuel (idx + 1) (reads + 1)
        (Int.tdiv (bd + new_range) 2) (Int.tdiv (bv + new_variance) 2)
    else (reads, bd, bv)

/-- Method `Tripwire::calibrate`.  `s` is the stream of values returned by
successive calls of the configured range function. -/
def Tripwire.calibrate (s : Nat → Int) (tw : Tripwire R C) : Tripwire R C :=
  if tw.getRange.isSome ∧ tw.distance_threshold ≠ 0 then
    let res := calibLoop s tw.min_baseline_reads tw.max_baseline_variance
      (tw.max_baseline_reads - 1).toNat 1 1 (s 0) (s 0)
    { tw with
        baseline_distance := res.2.1
        baseline_variance := res.2.2
        is_calibrated := decide (res.2.2 < tw.max_baseline_variance) }
  else
    { tw with is_calibrated := false }

/-- Total number of range readings taken by a `Tripwire::calibrate` call
(the final value of its local `baseline_reads`, which counts one for the
initial read plus one per loop iteration); zero when calibration is
skipped. -/
def Tripwire.calibrateReads (s : Nat → Int) (tw : Tripwire R C) : Int :=
  if tw.getRange.isSome ∧ tw.distance_threshold ≠ 0 then
    (calibLoop s tw.min_baseline_reads tw.max_baseline_variance
      (tw.max_baseline_reads - 1).toNat 1 1 (s 0) (s 0)).1
  else 0

/-- Method `Tripwire::start`. -/
def Tripwire.start (s : Nat → Int) (tw : Tripwire R C) : Tripwire R C :=
  Tripwire.calibrate s
    { tw with
        event_start_time := 0
        last_event_width := 0
        successive_detections := 0
        num_detections := 0 }

/-- Method `Tripwire::update`.  `r` is the value returned by the range
function for this call, `now` the value of `millis()`.  Returns `none` when
no range function is configured (the C code dereferences the null pointer),
otherwise `some (new state, onEventStart invoked, onEventEnd invoked)`. -/
def Tripwire.update (r : Int) (now : Nat) (tw : Tripwire R C) :
    Option (Tripwire R C × Bool × Bool) :=
  match tw.getRange with
  | none => none
  | some _ =>
    if tw.baseline_distance - r > tw.distance_threshold then
      if tw.successive_detections = tw.min_successive_detections then
        some ({ tw with
                  distance := r
                  successive_detections := tw.successive_detections + 1
                  event_start_time := now % UMOD
                  num_detections := (tw.num_detections + 1) % UMOD },
              tw.eventStartCB.isSome, false)
      else if tw.successive_detections < tw.min_successive_detections then
        some ({ tw with
                  distance := r
                  successive_detections := tw.successive_detections + 1 },
              false, false)
      else
        some ({ tw with distance := r }, false, false)
    else
      if tw.successive_detections > 0 then
        some ({ tw with
                  distance := r
                  last_event_width :=
                    (now % UMOD + UMOD - tw.event_start_time % UMOD) % UMOD
                  successive_detections := 0 },
              false, tw.eventEndCB.isSome)
      else
        some ({ tw with distance := r, successive_detections := 0 },
              false, false)

/-- Method `Tripwire::set_range_function`. -/
def Tripwire.set_range_function (f : Option R) (tw : Tripwire R C) :
    Tripwire R C :=
  match f with
  | none => tw
  | some g => { tw with getRange := some g }

/-- Method `Tripwire::set_event_start_callback`. -/
def Tripwire.set_event_start_callback (cb : Option C) (tw : Tripwire R C) :
    Tripwire R C :=
  match cb with
  | none => tw
  | some c => { tw with eventStartCB := some c }

/-- Method `Tripwire::set_event_end_callback`. -/
def Tripwire.set_event_end_callback (cb : Option C) (tw : Tripwire R C) :
    Tripwire R C :=
  match cb with
  | none => tw
  | some c => { tw with eventEndCB := some c }

/-- Method `Tripwire::reset_event_status`. -/
def Tripwire.reset_event_status (tw : Tripwire R C) : Tripwire R C :=
  { tw with successive_detections := 0 }

/-- An externally observable call made after `start()`: either an `update`
with the reading returned by the range function and the current `millis()`
value, or a `reset_event_status`. -/
inductive Op where
  | upd (r : Int) (now : Nat)
  | reset
deriving DecidableEq

/-- Single call of an `Op` on a tripwire state. -/
def stepOp (op : Op) (tw : Tripwire R C) : Option (Tripwire R C × Bool × Bool) :=
  match op with
  | .upd r now => tw.update r now
  | .reset => some (tw.reset_event_status, false, false)

/-- Sequential execution of a list of calls. -/
def runOps : List Op → Tripwire R C → Option (Tripwire R C)
  | [], tw => some tw
  | op :: rest, tw =>
    match stepOp op tw with
    | none => none
    | some (tw', _, _) => runOps rest tw'

/-- Sequential execution of a list of `update` calls (reading, time),
collecting the pair of callback-invocation flags of every call. -/
def runTrace : List (Int × Nat) → Tripwire R C → Option (Tripwire R C × List (Bool × Bool))
  | [], tw => some (tw, [])
  | (r, t) :: rest, tw =>
    match tw.update r t with
    | none => none
    | some (tw', f1, f2) =>
      match runTrace rest tw' with
      | none => none
      | some (twF, fs) => some (twF, (f1, f2) :: fs)

/-- Default-constructed tripwire with no range function configured. -/
def tw3 : Tripwire Nat Nat := Tripwire.init none

/-- Default-constructed tripwire with a range function, maximum read count
lowered to 1 so that the calibration loop body never runs. -/
def tw4p : Tripwire Nat Nat :=
  { (Tripwire.init (some 0) : Tripwire Nat Nat) with max_baseline_reads := 1 }

/-- Constant stream returning the negative reading -5. -/
def sNeg5 : Nat → Int := fun _ => -5

/-- Constant stream returning the reading 5. -/
def sPos5 : Nat → Int := fun _ => 5

/-- Tripwire state in the middle of an active event: counter 1, debounce
depth 0, event started at time 5, end callback registered. -/
def tw2w : Tripwire Nat Nat :=
  { (Tripwire.init (some 0) : Tripwire Nat Nat) with
      baseline_distance := 100
      successive_detections := 1
      event_start_time := 5
      eventEndCB := some 0 }

/-- Expected state after a non-detecting `update` of `tw2w` at time 12. -/
def tw2w' : Tripwire Nat Nat :=
  { tw2w with
      distance := 100
      last_event_width := 7
      successive_detections := 0 }

/-- Calibrated tripwire with baseline 100, default threshold 70, debounce
depth 0 and both callbacks registered. -/
def tw6 : Tripwire Nat Nat :=
  { (Tripwire.init (some 0) : Tripwire Nat Nat) with
      is_calibrated := true
      baseline_distance := 100
      eventStartCB := some 0
      eventEndCB := some 1 }

/-- Reading/time input trace of the spec's worked detection example. -/
def trace6 : List (Int × Nat) :=
  [(100, 0), (100, 10), (20, 20), (20, 30), (100, 40)]

/-- Number of events a single call confirms: 1 for an `update` whose reading
is detecting while the counter sits exactly at the debounce depth, else 0. -/
def opCount (op : Op) (tw : Tripwire R C) : Nat :=
  match op with
  | .upd r _ =>
    if tw.distance_threshold < tw.baseline_distance - r ∧
        tw.successive_detections = tw.min_successive_detections
      then 1 else 0
  | .reset => 0

/-- Sequential execution of a list of calls, also counting how many of the
calls confirmed an event. -/
def runCount : List Op → Tripwire R C → Option (Tripwire R C × Nat)
  | [], tw => some (tw, 0)
  | op :: rest, tw =>
    match stepOp op tw with
    | none => none
    | some (tw', _, _) =>
      match runCount rest tw' with
      | none => none
      | some (twF, n) => some (twF, opCount op tw + n)

/-- Unguarded iteration of the calibration update rule: `calibStates s k` is
the `(baseline_distance, baseline_variance)` pair after the seed read and
`k` executions of the loop body on the stream `s`, ignoring the loop
guard. -/
def calibStates (s : Nat → Int) : Nat → Int × Int
  | 0 => (s 0, s 0)
  | k + 1 =>
    let p := calibStates s k
    let r := s (k + 1)
    (Int.tdiv (p.1 + r) 2, Int.tdiv (p.2 + |p.1 - r|) 2)

/-- Property of a reading stream: every reading taken by a calibration loop
iteration deviates from the running `baseline_distance` by strictly more
than the bound `maxv`. -/
def alwaysDeviates (s : Nat → Int) (maxv : Int) : Prop :=
  ∀ k, maxv < |(calibStates s k).1 - s (k + 1)|

/-- Default-constructed tripwire with a range function configured
(thresholds 70/70, read bounds 20/40). -/
def tw5 : Tripwire Nat Nat := Tripwire.init (some 0)

/-- Stream whose seed reading is 0 and whose k-th loop reading sits exactly
71 above the running baseline (which stays at 35k), so every deviation is
71 > 70 while the smoothed variance climbs from 0 and saturates at exactly
70, never strictly above it. -/
def s5c (k : Nat) : Int := if k = 0 then 0 else 35 * (k : Int) + 36

/-- Joint recursion producing a reading stream whose every loop reading is
71 above the running baseline, together with that running
`(baseline_distance, baseline_variance)` pair. -/
def wStream : Nat → Int × Int × Int
  | 0 => (1000, 1000, 1000)
  | k + 1 =>
    let p := wStream k
    let r := p.2.1 + 71
    (r, Int.tdiv (p.2.1 + r) 2, Int.tdiv (p.2.2 + |p.2.1 - r|) 2)

/-- Reading stream extracted from `wStream`: seed 1000, every loop reading
71 above the running baseline. -/
def s5w (k : Nat) : Int := (wStream k).1

/-- Invariant of the detection state machine: nonnegative debounce depth and
a successive-detection counter within `[0, min_successive_detections + 1]`. -/
def TwInv (tw : Tripwire R C) : Prop :=
  0 ≤ tw.min_successive_detections ∧
    0 ≤ tw.successive_detections ∧
    tw.successive_detections ≤ tw.min_successive_detections + 1

/-- Calibrated tripwire used by the C7 witness: baseline 100, threshold 70,
debounce depth 0, both callbacks registered. -/
def tw7w : Tripwire Nat Nat :=
  { (Tripwire.init (some 0) : Tripwire Nat Nat) with
      is_calibrated := true
      baseline_distance := 100
      eventStartCB := some 0
      eventEndCB := some 1 }

/-- State of `tw7w` after the two updates (20 at time 0, 100 at time 10):
one confirmed event of width 10. -/
def tw7w' : Tripwire Nat Nat :=
  { tw7w with
      distance := 100
      num_detections := 1
      last_event_width := 10 }

/-- Default-constructed tripwire with a range function, used as the
`start()` input of the C7 counterexample run. -/
def tw7base : Tripwire Nat Nat := Tripwire.init (some 0)

/-- Shape of the states the C7 counterexample run cycles through: started
against a constant-100 stream (baseline 100, variance 0, calibrated), last
reading 20, counter 0, event started at time 0. -/
def tw7c : Tripwire Nat Nat :=
  { (Tripwire.init (some 0) : Tripwire Nat Nat) with
      is_calibrated := true
      distance := 20
      baseline_distance := 100 }

/-- The cycle state with a given detection count. -/
def twc (k : Nat) : Tripwire Nat Nat := { tw7c with num_detections := k }

/-- n copies of the pair (detecting update at time 0, manual reset): each
pair confirms exactly one event, the reset re-arming the counter. -/
def c7ops : Nat → List Op
  | 0 => []
  | n + 1 => c7ops n ++ [Op.upd 20 0, Op.reset]

/-- Tripwire in the middle of an active event (counter 1, debounce depth 0)
with the end callback registered, about to receive non-detecting
readings. -/
def tw9 : Tripwire Nat Nat :=
  { (Tripwire.init (some 0) : Tripwire Nat Nat) with
      is_calibrated := true
      baseline_distance := 100
      successive_detections := 1
      eventEndCB := some 0 }

/-- Idle tripwire (counter 0) with baseline 100, receiving non-detecting
readings. -/
def tw9w : Tripwire Nat Nat :=
  { (Tripwire.init (some 0) : Tripwire Nat Nat) with
      is_calibrated := true
      baseline_distance := 100 }

/-- State of `tw9w` after a non-detecting update with reading 100: only the
distance field changes. -/
def tw9w' : Tripwire Nat Nat := { tw9w with distance := 100 }

/-- Tripwire used by the C10 witness: default configuration with a range
function. -/
def tw10w : Tripwire Nat Nat := Tripwire.init (some 0)

/-- State of `tw10w` after `start` against the constant-zero stream:
calibration succeeds with baseline and variance 0. -/
def tw10w' : Tripwire Nat Nat := { tw10w with is_calibrated := true }

/-- Claim C1: after `calibrate()` completes with a configured RangeSource and
a nonzero `distance_threshold`, `is_calibrated` is true if and only if the
final `baseline_variance` is strictly below `max_baseline_variance` (so
equality yields `is_calibrated = false`). -/
theorem claim_C1 {R C : Type} (tw : Tripwire R C) (s : Nat → Int)
    (hs : tw.getRange.isSome = true) (ht : tw.distance_threshold ≠ 0) :
    (tw.calibrate s).is_calibrated = true ↔
      (tw.calibrate s).baseline_variance < (tw.calibrate s).max_baseline_variance := by
  simp only [Tripwire.calibrate, hs, ht, ne_eq, not_false_eq_true, and_self, if_true,
    true_and, if_pos]
  simp

/-- Witness for C1 at a concrete input: the default-constructed tripwire with
a range source, calibrated against a constant zero stream. -/
theorem witness_C1 :
    ((Tripwire.init (some 0) : Tripwire Nat Nat).getRange.isSome = true) ∧
      ((Tripwire.init (some 0) : Tripwire Nat Nat).distance_threshold ≠ 0) ∧
      (((Tripwire.init (some 0) : Tripwire Nat Nat).calibrate (fun _ => 0)).is_calibrated = true ↔
        ((Tripwire.init (some 0) : Tripwire Nat Nat).calibrate (fun _ => 0)).baseline_variance <
          ((Tripwire.init (some 0) : Tripwire Nat Nat).calibrate (fun _ => 0)).max_baseline_variance) :=
  ⟨by decide, by decide,
    claim_C1 (Tripwire.init (some 0)) (fun _ => 0) (by decide) (by decide)⟩

/-- Claim C8: passing a null argument to any of the three setters leaves the
stored value (and the whole state) unchanged, while a non-null argument
replaces the stored value and changes nothing else. -/
theorem claim_C8 {R C : Type} (tw : Tripwire R C) (f : R) (c : C) :
    (Tripwire.set_range_function none tw = tw ∧
      Tripwire.set_range_function (some f) tw = { tw with getRange := some f }) ∧
    (Tripwire.set_event_start_callback none tw = tw ∧
      Tripwire.set_event_start_callback (some c) tw = { tw with eventStartCB := some c }) ∧
    (Tripwire.set_event_end_callback none tw = tw ∧
      Tripwire.set_event_end_callback (some c) tw = { tw with eventEndCB := some c }) :=
  ⟨⟨rfl, rfl⟩, ⟨rfl, rfl⟩, rfl, rfl⟩

/-- Claim C2: on every `update()` call with a non-detecting reading and a
strictly positive successive-detection counter, `last_event_width` is set to
the (unsigned, modulo 2^32) difference between the current time and
`event_start_time` — plainly the current time minus `event_start_time`
whenever the latter does not exceed the former — `onEventEnd` is invoked
exactly when it is registered, and the counter is reset to 0.  No hypothesis
relates the counter to `min_successive_detections`, so this covers the case
where the event was never confirmed and `onEventStart` never fired. -/
theorem claim_C2 {R C : Type} (tw tw' : Tripwire R C) (r : Int) (now : Nat)
    (f1 f2 : Bool)
    (hnd : tw.baseline_distance - r ≤ tw.distance_threshold)
    (hpos : 0 < tw.successive_detections)
    (hup : tw.update r now = some (tw', f1, f2)) :
    tw'.last_event_width = (now % UMOD + UMOD - tw.event_start_time % UMOD) % UMOD ∧
      f2 = tw.eventEndCB.isSome ∧
      tw'.successive_detections = 0 ∧
      (tw.event_start_time % UMOD ≤ now % UMOD →
        tw'.last_event_width = now % UMOD - tw.event_start_time % UMOD) := by
  unfold Tripwire.update at hup
  cases hg : tw.getRange with
  | none => rw [hg] at hup; exact absurd hup (by simp)
  | some g =>
    rw [hg] at hup
    rw [if_neg (by omega), if_pos hpos] at hup
    simp only [Option.some.injEq, Prod.mk.injEq] at hup
    obtain ⟨h1, h2, h3⟩ := hup
    subst h1
    refine ⟨rfl, h3.symm, rfl, fun hle => ?_⟩
    simp only [UMOD] at hle ⊢
    omega

/-- Witness for C2 at a concrete input: counter 1, non-detecting reading 100
against baseline 100, event started at time 5, current time 12; the width
becomes 7 and the registered end callback is invoked. -/
theorem witness_C2 :
    (tw2w.baseline_distance - 100 ≤ tw2w.distance_threshold) ∧
      (0 < tw2w.successive_detections) ∧
      (tw2w.update 100 12 = some (tw2w', false, true)) ∧
      (tw2w'.last_event_width = (12 % UMOD + UMOD - tw2w.event_start_time % UMOD) % UMOD ∧
        true = tw2w.eventEndCB.isSome ∧
        tw2w'.successive_detections = 0 ∧
        (tw2w.event_start_time % UMOD ≤ 12 % UMOD →
          tw2w'.last_event_width = 12 % UMOD - tw2w.event_start_time % UMOD)) :=
  ⟨by decide, by decide, by decide,
    claim_C2 tw2w tw2w' 100 12 false true (by decide) (by decide) (by decide)⟩

/-- Counterexample for C3: with no RangeSource configured, `update()` is not
a silent no-op — the C code dereferences the null range-function pointer
unconditionally (modelled as `none`), unlike `calibrate()`, which does guard
against the missing source. -/
theorem counterexample_C3 : tw3.update 0 0 = none := by decide

/-- Claim C3 (amended): if no RangeSource is configured, `calibrate()` — and
hence the calibration run by `start()` — is a silent no-op apart from
(re)setting `is_calibrated` to false, but `update()` unconditionally calls
through the unset RangeSource and so does not complete as a no-op. -/
theorem claim_C3 {R C : Type} (tw : Tripwire R C) (s : Nat → Int) (r : Int)
    (t : Nat) (hg : tw.getRange = none) :
    tw.calibrate s = { tw with is_calibrated := false } ∧
      tw.update r t = none := by
  constructor
  · simp [Tripwire.calibrate, hg]
  · unfold Tripwire.update
    rw [hg]

/-- Witness for C3 at a concrete input: the default-constructed tripwire
with no range function. -/
theorem witness_C3 :
    (tw3.getRange = none) ∧
      (tw3.calibrate sPos5 = { tw3 with is_calibrated := false } ∧
        tw3.update 0 0 = none) :=
  ⟨by decide, claim_C3 tw3 sPos5 0 0 (by decide)⟩

/-- Counterexample for C4: the calibration seed assigns the raw first
reading, not its magnitude, to `baseline_variance`; with a first reading of
-5 (and a configuration whose loop body never runs, so the seed is the final
value) the resulting `baseline_variance` is -5, not 5. -/
theorem counterexample_C4 :
    (tw4p.calibrate sNeg5).baseline_variance ≠ |sNeg5 0| := by decide

/-- Claim C4 (amended): after the single initial reading (observed at the
output by a configuration with `max_baseline_reads ≤ 1`, for which the loop
body never runs), `baseline_variance` equals the raw first reading itself —
which coincides with its magnitude exactly when the reading is
nonnegative. -/
theorem claim_C4 {R C : Type} (tw : Tripwire R C) (s : Nat → Int)
    (hs : tw.getRange.isSome = true) (ht : tw.distance_threshold ≠ 0)
    (hmax : tw.max_baseline_reads ≤ 1) :
    (tw.calibrate s).baseline_variance = s 0 ∧
      (tw.calibrate s).baseline_distance = s 0 ∧
      (0 ≤ s 0 → (tw.calibrate s).baseline_variance = |s 0|) := by
  have hfuel : (tw.max_baseline_reads - 1).toNat = 0 := by omega
  have hcal : tw.calibrate s =
      { tw with
          baseline_distance := s 0
          baseline_variance := s 0
          is_calibrated := decide (s 0 < tw.max_baseline_variance) } := by
    unfold Tripwire.calibrate
    rw [if_pos ⟨hs, ht⟩, hfuel]
    rfl
  exact ⟨by rw [hcal], by rw [hcal], fun h => by rw [hcal]; exact (abs_of_nonneg h).symm⟩

/-- Witness for C4 at a concrete input: first reading 5, maximum read count
1; the seeded variance is the reading itself. -/
theorem witness_C4 :
    (tw4p.getRange.isSome = true) ∧ (tw4p.distance_threshold ≠ 0) ∧
      (tw4p.max_baseline_reads ≤ 1) ∧
      ((tw4p.calibrate sPos5).baseline_variance = sPos5 0 ∧
        (tw4p.calibrate sPos5).baseline_distance = sPos5 0 ∧
        (0 ≤ sPos5 0 → (tw4p.calibrate sPos5).baseline_variance = |sPos5 0|)) :=
  ⟨by decide, by decide, by decide,
    claim_C4 tw4p sPos5 (by decide) (by decide) (by decide)⟩

/-- Claim C6: with debounce depth 0, baseline 100 and threshold 70, the
reading trace [100, 100, 20, 20, 100] (at times 0, 10, 20, 30, 40) invokes
`onEventStart` exactly once — on the first 20 — and `onEventEnd` exactly
once — on the final 100 — leaves `num_detections = 1`, and sets
`last_event_width` to 20, the elapsed time between those two calls. -/
theorem claim_C6 :
    (runTrace trace6 tw6).map (fun p => p.2) =
      some [(false, false), (false, false), (true, false), (false, false), (false, true)] ∧
      (runTrace trace6 tw6).map (fun p => p.1.num_detections) = some 1 ∧
      (runTrace trace6 tw6).map (fun p => p.1.last_event_width) = some 20 := by
  decide

/-- Execution of a concatenated call sequence is the sequential execution of
the two halves. -/
theorem runOps_append {R C : Type} (xs ys : List Op) (tw : Tripwire R C) :
    runOps (xs ++ ys) tw =
      match runOps xs tw with
      | none => none
      | some tw' => runOps ys tw' := by
  induction xs generalizing tw with
  | nil => rfl
  | cons op rest ih =>
    simp only [List.cons_append, runOps]
    cases stepOp op tw with
    | none => rfl
    | some p =>
      obtain ⟨tw', f1, f2⟩ := p
      exact ih tw'

/-- Unfolding lemma: each step of `c7ops` appends one (detecting update,
reset) pair. -/
theorem c7ops_succ (n : Nat) :
    c7ops (n + 1) = c7ops n ++ [Op.upd 20 0, Op.reset] := by
  simp only [c7ops]

/-- One (detecting update, reset) pair on a cycle state confirms exactly one
event: the detection count advances by one modulo 2^32 and everything else
returns to the cycle state. -/
theorem twc_pair (k : Nat) :
    runOps [Op.upd 20 0, Op.reset] (twc k) = some (twc ((k + 1) % UMOD)) := rfl

/-- Running n (detecting update, reset) pairs from the started tripwire
leaves the detection count at n modulo 2^32. -/
theorem c7_reaches : ∀ n, 1 ≤ n →
    runOps (c7ops n) (tw7base.start (fun _ => (100 : Int))) =
      some (twc (n % UMOD)) := by
  intro n
  induction n with
  | zero => intro h; exact absurd h (by decide)
  | succ n ih =>
    intro _
    by_cases hn : 1 ≤ n
    · have hsplit : c7ops (n + 1) = c7ops n ++ [Op.upd 20 0, Op.reset] := by
        simp only [c7ops]
      rw [hsplit, runOps_append, ih hn]
      have harith : (n % UMOD + 1) % UMOD = (n + 1) % UMOD := by
        simp only [UMOD]
        omega
      show runOps [Op.upd 20 0, Op.reset] (twc (n % UMOD)) =
        some (twc ((n + 1) % UMOD))
      rw [twc_pair (n % UMOD), harith]
    · have hn0 : n = 0 := by omega
      subst hn0
      decide

/-- Counterexample for C7: `num_detections` is an `unsigned long`, so after
2^32 confirmed events it wraps to 0.  A single call sequence of 2^32
(detecting update, reset) pairs after `start()` passes through the state
with detection count 2^32 - 1 (after its length-(2^32 - 1) prefix, the first
conjunct showing the prefix relation) and ends with detection count 0 — a
decrease, refuting "never decreases", and a 2^32-th confirming call that
does not increase the count by 1. -/
theorem counterexample_C7 :
    c7ops UMOD = c7ops (UMOD - 1) ++ [Op.upd 20 0, Op.reset] ∧
      runOps (c7ops (UMOD - 1)) (tw7base.start (fun _ => (100 : Int))) =
        some (twc (UMOD - 1)) ∧
      runOps (c7ops UMOD) (tw7base.start (fun _ => (100 : Int))) =
        some (twc 0) ∧
      (twc 0).num_detections < (twc (UMOD - 1)).num_detections := by
  refine ⟨?_, ?_, ?_, by decide⟩
  · have h : UMOD = UMOD - 1 + 1 := by decide
    nth_rewrite 1 [h]
    exact c7ops_succ (UMOD - 1)
  · have h := c7_reaches (UMOD - 1) (by decide)
    rwa [show (UMOD - 1) % UMOD = UMOD - 1 by decide] at h
  · have h := c7_reaches UMOD (by decide)
    rwa [show UMOD % UMOD = 0 by decide] at h

/-- Claim C7 (amended): `num_detections` is written only by confirming
`update` calls (reading detecting with the counter exactly at
`min_successive_detections`), each of which increments it by exactly 1
modulo 2^32 (`unsigned long` wraparound); `reset_event_status` never changes
it.  Consequently, across any call sequence from a state whose count is
below 2^32 (as after `start()`), the final count is the initial count plus
the number of confirmed events modulo 2^32, and it never decreases as long
as fewer than 2^32 events are confirmed. -/
theorem claim_C7 {R C : Type} :
    (∀ (tw tw' : Tripwire R C) (r : Int) (t : Nat) (f1 f2 : Bool),
        tw.update r t = some (tw', f1, f2) →
        tw'.num_detections =
          (if tw.distance_threshold < tw.baseline_distance - r ∧
              tw.successive_detections = tw.min_successive_detections
            then (tw.num_detections + 1) % UMOD else tw.num_detections)) ∧
      (∀ tw : Tripwire R C,
        (tw.reset_event_status).num_detections = tw.num_detections) ∧
      (∀ (ops : List Op) (tw tw' : Tripwire R C) (n : Nat),
        runCount ops tw = some (tw', n) →
        tw.num_detections < UMOD →
        tw'.num_detections = (tw.num_detections + n) % UMOD) ∧
      (∀ (ops : List Op) (tw tw' : Tripwire R C) (n : Nat),
        runCount ops tw = some (tw', n) →
        tw.num_detections + n < UMOD →
        tw.num_detections ≤ tw'.num_detections) := by
  have hstep : ∀ (tw tw' : Tripwire R C) (r : Int) (t : Nat) (f1 f2 : Bool),
      tw.update r t = some (tw', f1, f2) →
      tw'.num_detections =
        (if tw.distance_threshold < tw.baseline_distance - r ∧
            tw.successive_detections = tw.min_successive_detections
          then (tw.num_detections + 1) % UMOD else tw.num_detections) := by
    intro tw tw' r t f1 f2 hup
    unfold Tripwire.update at hup
    cases hg : tw.getRange with
    | none => rw [hg] at hup; exact absurd hup (by simp)
    | some g =>
      rw [hg] at hup
      by_cases hdet : tw.baseline_distance - r > tw.distance_threshold
      · rw [if_pos hdet] at hup
        by_cases hmin : tw.successive_detections = tw.min_successive_detections
        · rw [if_pos hmin] at hup
          simp only [Option.some.injEq, Prod.mk.injEq] at hup
          obtain ⟨h1, -, -⟩ := hup
          subst h1
          rw [if_pos ⟨hdet, hmin⟩]
        · rw [if_neg hmin] at hup
          rw [if_neg (fun hc => hmin hc.2)]
          by_cases hlt : tw.successive_detections < tw.min_successive_detections
          · rw [if_pos hlt] at hup
            simp only [Option.some.injEq, Prod.mk.injEq] at hup
            obtain ⟨h1, -, -⟩ := hup
            subst h1
            rfl
          · rw [if_neg hlt] at hup
            simp only [Option.some.injEq, Prod.mk.injEq] at hup
            obtain ⟨h1, -, -⟩ := hup
            subst h1
            rfl
      · rw [if_neg hdet] at hup
        rw [if_neg (fun hc => hdet hc.1)]
        by_cases hpos : tw.successive_detections > 0
        · rw [if_pos hpos] at hup
          simp only [Option.some.injEq, Prod.mk.injEq] at hup
          obtain ⟨h1, -, -⟩ := hup
          subst h1
          rfl
        · rw [if_neg hpos] at hup
          simp only [Option.some.injEq, Prod.mk.injEq] at hup
          obtain ⟨h1, -, -⟩ := hup
          subst h1
          rfl
  have hseq : ∀ (ops : List Op) (tw tw' : Tripwire R C) (n : Nat),
      runCount ops tw = some (tw', n) →
      tw.num_detections < UMOD →
      tw'.num_detections = (tw.num_detections + n) % UMOD := by
    intro ops
    induction ops with
    | nil =>
      intro tw tw' n h hlt
      simp only [runCount, Option.some.injEq, Prod.mk.injEq] at h
      obtain ⟨h1, h2⟩ := h
      subst h1
      subst h2
      rw [Nat.add_zero, Nat.mod_eq_of_lt hlt]
    | cons op rest ih =>
      intro tw tw' n h hlt
      unfold runCount at h
      cases hst : stepOp op tw with
      | none => rw [hst] at h; exact absurd h (by simp)
      | some p =>
        obtain ⟨tw'', f1, f2⟩ := p
        rw [hst] at h
        have h' : (match runCount rest tw'' with
            | none => none
            | some (twF, n0) => some (twF, opCount op tw + n0)) = some (tw', n) := h
        cases hrc : runCount rest tw'' with
        | none => rw [hrc] at h'; exact absurd h' (by simp)
        | some q =>
          obtain ⟨twF, n'⟩ := q
          rw [hrc] at h'
          simp only [Option.some.injEq, Prod.mk.injEq] at h'
          obtain ⟨h1, h2⟩ := h'
          subst h1
          subst h2
          cases op with
          | reset =>
            simp only [stepOp, Option.some.injEq, Prod.mk.injEq] at hst
            obtain ⟨h3, -, -⟩ := hst
            have hnum : tw''.num_detections = tw.num_detections := by
              rw [← h3]
              rfl
            have hres := ih tw'' twF n' hrc (by rw [hnum]; exact hlt)
            rw [hres, hnum]
            simp only [opCount, Nat.zero_add]
          | upd r t =>
            have hchar := hstep tw tw'' r t f1 f2 hst
            by_cases hc : tw.distance_threshold < tw.baseline_distance - r ∧
                tw.successive_detections = tw.min_successive_detections
            · rw [if_pos hc] at hchar
              have hlt'' : tw''.num_detections < UMOD := by
                rw [hchar]
                exact Nat.mod_lt _ (by decide)
              have hres := ih tw'' twF n' hrc hlt''
              rw [hres, hchar]
              simp only [opCount, if_pos hc]
              simp only [UMOD]
              omega
            · rw [if_neg hc] at hchar
              have hres := ih tw'' twF n' hrc (by rw [hchar]; exact hlt)
              rw [hres, hchar]
              simp only [opCount, if_neg hc, Nat.zero_add]
  refine ⟨hstep, fun tw => rfl, hseq, ?_⟩
  intro ops tw tw' n h hlt
  have h3 := hseq ops tw tw' n h (by omega)
  rw [Nat.mod_eq_of_lt hlt] at h3
  omega

/-- Witness for C7 at a concrete input: from the calibrated state `tw7w`, a
detecting update (reading 20 at time 0) followed by a non-detecting one
(reading 100 at time 10) confirms one event, taking the detection count from
0 to (0 + 1) mod 2^32 = 1, not below its initial value. -/
theorem witness_C7 :
    (runCount [Op.upd 20 0, Op.upd 100 10] tw7w = some (tw7w', 1)) ∧
      (tw7w.num_detections < UMOD) ∧
      (tw7w.num_detections + 1 < UMOD) ∧
      tw7w'.num_detections = (tw7w.num_detections + 1) % UMOD ∧
      tw7w.num_detections ≤ tw7w'.num_detections :=
  ⟨by decide, by decide, by decide,
    (@claim_C7 Nat Nat).2.2.1 [Op.upd 20 0, Op.upd 100 10] tw7w tw7w' 1
      (by decide) (by decide),
    (@claim_C7 Nat Nat).2.2.2 [Op.upd 20 0, Op.upd 100 10] tw7w tw7w' 1
      (by decide) (by decide)⟩

/-- Counterexample for C9: from a state in the middle of an active event
(counter 1, end callback registered), a repeated sequence of `update` calls
whose readings (100 against baseline 100, threshold 70) are all
non-detecting and unchanged does fire a callback — `onEventEnd` fires on the
first call — refuting the claim's "no callback is fired" for every state. -/
theorem counterexample_C9 :
    (tw9.baseline_distance - 100 ≤ tw9.distance_threshold) ∧
      (runTrace [(100, 0), (100, 10)] tw9).map (fun p => p.2) =
        some [(false, true), (false, false)] := by
  decide

/-- Claim C9 (amended): a non-detecting `update` never changes
`num_detections` or `event_start_time`, never invokes `onEventStart`, and
always leaves the counter 0; from a state whose counter is already 0 — as
is the case after the first such call — it changes only the `distance`
field and invokes no callback at all, so repeated unchanged non-detecting
updates are a fixed point from the second call on.  (From a state with a
positive counter, the first call may invoke `onEventEnd`, so the original
"fire no callback for every state" fails.) -/
theorem claim_C9 {R C : Type} (tw tw' : Tripwire R C) (r : Int) (t : Nat)
    (f1 f2 : Bool)
    (hnd : tw.baseline_distance - r ≤ tw.distance_threshold)
    (hup : tw.update r t = some (tw', f1, f2)) :
    tw'.num_detections = tw.num_detections ∧
      tw'.event_start_time = tw.event_start_time ∧
      f1 = false ∧
      tw'.successive_detections = 0 ∧
      (tw.successive_detections = 0 →
        tw' = { tw with distance := r } ∧ f2 = false) ∧
      (tw.successive_detections = 0 → tw.distance = r →
        tw' = tw ∧ f2 = false) := by
  unfold Tripwire.update at hup
  cases hg : tw.getRange with
  | none => rw [hg] at hup; exact absurd hup (by simp)
  | some g =>
    rw [hg] at hup
    rw [if_neg (by omega)] at hup
    by_cases hpos : tw.successive_detections > 0
    · rw [if_pos hpos] at hup
      simp only [Option.some.injEq, Prod.mk.injEq] at hup
      obtain ⟨h1, h2, h3⟩ := hup
      subst h1
      exact ⟨rfl, rfl, h2.symm, rfl, fun h0 => absurd h0 (by omega),
        fun h0 _ => absurd h0 (by omega)⟩
    · rw [if_neg hpos] at hup
      simp only [Option.some.injEq, Prod.mk.injEq] at hup
      obtain ⟨h1, h2, h3⟩ := hup
      subst h1
      refine ⟨rfl, rfl, h2.symm, rfl, fun h0 => ⟨?_, h3.symm⟩, fun h0 hd => ⟨?_, h3.symm⟩⟩
      · rw [show (0 : Int) = tw.successive_detections from h0.symm]
        try rw [← hg]
      · rw [show (0 : Int) = tw.successive_detections from h0.symm,
          show r = tw.distance from hd.symm, ← hg]

/-- Witness for C9 at a concrete input: the idle state `tw9w` with a
non-detecting reading 100 at time 7. -/
theorem witness_C9 :
    (tw9w.baseline_distance - 100 ≤ tw9w.distance_threshold) ∧
      (tw9w.update 100 7 = some (tw9w', false, false)) ∧
      (tw9w'.num_detections = tw9w.num_detections ∧
        tw9w'.event_start_time = tw9w.event_start_time ∧
        false = false ∧
        tw9w'.successive_detections = 0 ∧
        (tw9w.successive_detections = 0 →
          tw9w' = { tw9w with distance := 100 } ∧ false = false) ∧
        (tw9w.successive_detections = 0 → tw9w.distance = 100 →
          tw9w' = tw9w ∧ false = false)) :=
  ⟨by decide, by decide,
    claim_C9 tw9w tw9w' 100 7 false false (by decide) (by decide)⟩

/-- Preservation helper: `calibrate` changes neither the debounce depth nor
the successive-detection counter. -/
theorem calibrate_keeps {R C : Type} (s : Nat → Int) (tw : Tripwire R C) :
    (tw.calibrate s).min_successive_detections = tw.min_successive_detections ∧
      (tw.calibrate s).successive_detections = tw.successive_detections := by
  unfold Tripwire.calibrate
  split <;> exact ⟨rfl, rfl⟩

/-- Preservation helper: one successful `update` or `reset_event_status`
call keeps the counter invariant. -/
theorem stepOp_inv {R C : Type} (op : Op) (tw tw' : Tripwire R C)
    (f1 f2 : Bool) (hinv : TwInv tw) (h : stepOp op tw = some (tw', f1, f2)) :
    TwInv tw' := by
  obtain ⟨hm, h0, h1⟩ := hinv
  cases op with
  | reset =>
    simp only [stepOp, Option.some.injEq, Prod.mk.injEq] at h
    obtain ⟨h2, -, -⟩ := h
    subst h2
    exact ⟨hm, Int.le_refl 0,
      show (0 : Int) ≤ tw.min_successive_detections + 1 by omega⟩
  | upd r t =>
    simp only [stepOp] at h
    unfold Tripwire.update at h
    cases hg : tw.getRange with
    | none => rw [hg] at h; exact absurd h (by simp)
    | some g =>
      rw [hg] at h
      by_cases hdet : tw.baseline_distance - r > tw.distance_threshold
      · rw [if_pos hdet] at h
        by_cases hmin : tw.successive_detections = tw.min_successive_detections
        · rw [if_pos hmin] at h
          simp only [Option.some.injEq, Prod.mk.injEq] at h
          obtain ⟨h2, -, -⟩ := h
          subst h2
          exact ⟨hm, show (0 : Int) ≤ tw.successive_detections + 1 by omega,
            show tw.successive_detections + 1 ≤ tw.min_successive_detections + 1 by omega⟩
        · rw [if_neg hmin] at h
          by_cases hlt : tw.successive_detections < tw.min_successive_detections
          · rw [if_pos hlt] at h
            simp only [Option.some.injEq, Prod.mk.injEq] at h
            obtain ⟨h2, -, -⟩ := h
            subst h2
            exact ⟨hm, show (0 : Int) ≤ tw.successive_detections + 1 by omega,
              show tw.successive_detections + 1 ≤ tw.min_successive_detections + 1 by omega⟩
          · rw [if_neg hlt] at h
            simp only [Option.some.injEq, Prod.mk.injEq] at h
            obtain ⟨h2, -, -⟩ := h
            subst h2
            exact ⟨hm, h0, h1⟩
      · rw [if_neg hdet] at h
        by_cases hpos : tw.successive_detections > 0
        · rw [if_pos hpos] at h
          simp only [Option.some.injEq, Prod.mk.injEq] at h
          obtain ⟨h2, -, -⟩ := h
          subst h2
          exact ⟨hm, Int.le_refl 0,
            show (0 : Int) ≤ tw.min_successive_detections + 1 by omega⟩
        · rw [if_neg hpos] at h
          simp only [Option.some.injEq, Prod.mk.injEq] at h
          obtain ⟨h2, -, -⟩ := h
          subst h2
          exact ⟨hm, Int.le_refl 0,
            show (0 : Int) ≤ tw.min_successive_detections + 1 by omega⟩

/-- Preservation helper: running any call sequence keeps the counter
invariant. -/
theorem runOps_inv {R C : Type} (ops : List Op) (tw tw' : Tripwire R C)
    (hinv : TwInv tw) (h : runOps ops tw = some tw') : TwInv tw' := by
  induction ops generalizing tw with
  | nil =>
    simp only [runOps, Option.some.injEq] at h
    subst h
    exact hinv
  | cons op rest ih =>
    unfold runOps at h
    cases hst : stepOp op tw with
    | none => rw [hst] at h; exact absurd h (by simp)
    | some p =>
      obtain ⟨tw'', f1, f2⟩ := p
      rw [hst] at h
      exact ih tw'' (stepOp_inv op tw tw'' f1 f2 hinv hst) h

/-- Claim C10: with a nonnegative debounce depth, in every state reachable
from `start()` by `update`/`reset_event_status` calls, the
successive-detection counter lies in `[0, min_successive_detections + 1]`;
moreover a detecting sample arriving with the counter already at
`min_successive_detections + 1` leaves the counter unchanged. -/
theorem claim_C10 {R C : Type} :
    (∀ (tw0 : Tripwire R C) (s : Nat → Int) (ops : List Op)
        (tw' : Tripwire R C),
        0 ≤ tw0.min_successive_detections →
        runOps ops (tw0.start s) = some tw' →
        0 ≤ tw'.successive_detections ∧
          tw'.successive_detections ≤ tw'.min_successive_detections + 1) ∧
      (∀ (tw tw' : Tripwire R C) (r : Int) (t : Nat) (f1 f2 : Bool),
        tw.distance_threshold < tw.baseline_distance - r →
        tw.successive_detections = tw.min_successive_detections + 1 →
        tw.update r t = some (tw', f1, f2) →
        tw'.successive_detections = tw.successive_detections) := by
  constructor
  · intro tw0 s ops tw' hm hrun
    have hkeep := calibrate_keeps s
      { tw0 with
          event_start_time := 0
          last_event_width := 0
          successive_detections := 0
          num_detections := 0 }
    have hstart : TwInv (tw0.start s) := by
      unfold Tripwire.start TwInv
      rw [hkeep.1, hkeep.2]
      exact ⟨hm, Int.le_refl 0,
        show (0 : Int) ≤ tw0.min_successive_detections + 1 by omega⟩
    exact (runOps_inv ops _ tw' hstart hrun).2
  · intro tw tw' r t f1 f2 hdet hcnt hup
    unfold Tripwire.update at hup
    cases hg : tw.getRange with
    | none => rw [hg] at hup; exact absurd hup (by simp)
    | some g =>
      rw [hg] at hup
      rw [if_pos hdet, if_neg (by omega), if_neg (by omega)] at hup
      simp only [Option.some.injEq, Prod.mk.injEq] at hup
      obtain ⟨h1, -, -⟩ := hup
      subst h1
      rfl

/-- Witness for C10 at a concrete input: starting the default tripwire
against a constant-zero stream and then issuing a manual reset leaves the
counter 0, inside [0, 1]; and a detecting update on `tw9` (whose counter is
already at depth + 1) leaves the counter at 1. -/
theorem witness_C10 :
    ((0 : Int) ≤ tw10w.min_successive_detections ∧
      runOps [Op.reset] (tw10w.start (fun _ => 0)) = some tw10w' ∧
      (0 ≤ tw10w'.successive_detections ∧
        tw10w'.successive_detections ≤ tw10w'.min_successive_detections + 1)) ∧
      (tw9.distance_threshold < tw9.baseline_distance - 20 ∧
        tw9.successive_detections = tw9.min_successive_detections + 1 ∧
        (tw9.update 20 3).map (fun p => p.1.successive_detections) =
          some tw9.successive_detections) :=
  ⟨⟨by decide, by decide,
      (@claim_C10 Nat Nat).1 tw10w (fun _ => 0) [Op.reset] tw10w'
        (by decide) (by decide)⟩,
    by decide, by decide, by decide⟩

/-- Arithmetic helper: a truncating division by two of a nonnegative value
stays at or above half of any even lower bound. -/
theorem tdiv_two_ge {a m : Int} (ha : 0 ≤ a) (h : 2 * m ≤ a) :
    m ≤ Int.tdiv a 2 := by
  rw [Int.tdiv_eq_ediv ha (by norm_num)]
  omega

/-- With a seed variance strictly above a nonnegative bound and all loop
deviations strictly above the bound, the smoothed variance stays strictly
above the bound for ever. -/
theorem calibStates_var_gt (s : Nat → Int) (maxv : Int) (hmaxv : 0 ≤ maxv)
    (h0 : maxv < s 0) (hdev : alwaysDeviates s maxv) :
    ∀ k, maxv < (calibStates s k).2 := by
  intro k
  induction k with
  | zero => exact h0
  | succ k ih =>
    have hd := hdev k
    have ha : 0 ≤ (calibStates s k).2 + |(calibStates s k).1 - s (k + 1)| := by
      omega
    have h2 : 2 * (maxv + 1) ≤
        (calibStates s k).2 + |(calibStates s k).1 - s (k + 1)| := by omega
    have h3 := tdiv_two_ge ha h2
    have h4 : (calibStates s (k + 1)).2 =
        Int.tdiv ((calibStates s k).2 + |(calibStates s k).1 - s (k + 1)|) 2 := rfl
    omega

/-- When the running variance always exceeds the bound, the calibration loop
never exits early: it consumes all its fuel, one read per iteration, ending
in the unguarded iterate of the update rule. -/
theorem calibLoop_full (s : Nat → Int) (minr maxv : Int)
    (hbv : ∀ k, maxv < (calibStates s k).2) :
    ∀ (fuel k : Nat) (z : Int),
      calibLoop s minr maxv fuel (k + 1) z (calibStates s k).1 (calibStates s k).2 =
        (z + (fuel : Int), calibStates s (k + fuel)) := by
  intro fuel
  induction fuel with
  | zero =>
    intro k z
    simp [calibLoop]
  | succ fuel ih =>
    intro k z
    have hguard : z < minr ∨ (calibStates s k).2 > maxv := Or.inr (hbv k)
    simp only [calibLoop]
    rw [if_pos hguard]
    rw [show Int.tdiv ((calibStates s k).1 + s (k + 1)) 2 =
        (calibStates s (k + 1)).1 from rfl,
      show Int.tdiv ((calibStates s k).2 + |(calibStates s k).1 - s (k + 1)|) 2 =
        (calibStates s (k + 1)).2 from rfl]
    rw [ih (k + 1) (z + 1)]
    have h1 : k + 1 + fuel = k + (fuel + 1) := by omega
    have h2 : z + 1 + (fuel : Int) = z + ((fuel + 1 : Nat) : Int) := by
      push_cast
      ring
    rw [h1, h2]

/-- Closed form of the running baseline on the stream `s5c`: after k loop
iterations the baseline is exactly 35k. -/
theorem s5c_baseline : ∀ k, (calibStates s5c k).1 = 35 * (k : Int) := by
  intro k
  induction k with
  | zero => simp [calibStates, s5c]
  | succ k ih =>
    have h1 : (calibStates s5c (k + 1)).1 =
        Int.tdiv ((calibStates s5c k).1 + s5c (k + 1)) 2 := rfl
    have h2 : s5c (k + 1) = 35 * ((k : Int) + 1) + 36 := by
      simp only [s5c, if_neg (Nat.succ_ne_zero k)]
      push_cast
      ring
    rw [h1, ih, h2]
    rw [Int.tdiv_eq_ediv (by omega) (by norm_num)]
    omega

/-- Counterexample for C5: against the default configuration (bounds 20/40,
variance ceiling 70), the stream `s5c` deviates from the running baseline by
exactly 71 > 70 on every loop iteration, yet calibration takes only 20
readings — the truncated smoothing saturates the variance at exactly 70,
never strictly above it, so the loop exits at `min_baseline_reads`, not at
`max_baseline_reads` = 40. -/
theorem counterexample_C5 :
    alwaysDeviates s5c tw5.max_baseline_variance ∧
      tw5.calibrateReads s5c = 20 ∧ tw5.max_baseline_reads = 40 := by
  refine ⟨?_, by decide, by decide⟩
  intro k
  rw [s5c_baseline k]
  have h2 : s5c (k + 1) = 35 * ((k : Int) + 1) + 36 := by
    simp only [s5c, if_neg (Nat.succ_ne_zero k)]
    push_cast
    ring
  rw [h2]
  have h3 : 35 * (k : Int) - (35 * ((k : Int) + 1) + 36) = -71 := by ring
  rw [h3]
  decide

/-- Claim C5 (amended): for a configured, nonzero-threshold tripwire with
`0 ≤ max_baseline_variance` and `1 ≤ max_baseline_reads`, if the seed
variance (the raw first reading) strictly exceeds `max_baseline_variance`
and every loop reading deviates from the running baseline by strictly more
than `max_baseline_variance`, then `calibrate()` takes exactly
`max_baseline_reads` readings (the loop exits only via the read-count
bound) and ends with `is_calibrated = false`. -/
theorem claim_C5 {R C : Type} (tw : Tripwire R C) (s : Nat → Int)
    (hs : tw.getRange.isSome = true) (ht : tw.distance_threshold ≠ 0)
    (hmaxv : 0 ≤ tw.max_baseline_variance)
    (hmaxr : 1 ≤ tw.max_baseline_reads)
    (h0 : tw.max_baseline_variance < s 0)
    (hdev : alwaysDeviates s tw.max_baseline_variance) :
    tw.calibrateReads s = tw.max_baseline_reads ∧
      (tw.calibrate s).is_calibrated = false := by
  have hbv := calibStates_var_gt s tw.max_baseline_variance hmaxv h0 hdev
  have hfull := calibLoop_full s tw.min_baseline_reads tw.max_baseline_variance
    hbv (tw.max_baseline_reads - 1).toNat 0 1
  simp only [Nat.zero_add] at hfull
  rw [show (calibStates s 0).1 = s 0 from rfl,
    show (calibStates s 0).2 = s 0 from rfl] at hfull
  constructor
  · unfold Tripwire.calibrateReads
    rw [if_pos ⟨hs, ht⟩, hfull]
    show (1 : Int) + ((tw.max_baseline_reads - 1).toNat : Int) =
      tw.max_baseline_reads
    omega
  · unfold Tripwire.calibrate
    rw [if_pos ⟨hs, ht⟩, hfull]
    show decide ((calibStates s (tw.max_baseline_reads - 1).toNat).2 <
      tw.max_baseline_variance) = false
    exact decide_eq_false (by have := hbv (tw.max_baseline_reads - 1).toNat; omega)

/-- The witness stream's bookkeeping agrees with the unguarded calibration
iterate. -/
theorem wStream_calibStates :
    ∀ k, calibStates s5w k = ((wStream k).2.1, (wStream k).2.2) := by
  intro k
  induction k with
  | zero => rfl
  | succ k ih =>
    have h1 : calibStates s5w (k + 1) =
        (Int.tdiv ((calibStates s5w k).1 + s5w (k + 1)) 2,
          Int.tdiv ((calibStates s5w k).2 + |(calibStates s5w k).1 - s5w (k + 1)|) 2) := rfl
    have h2 : s5w (k + 1) = (wStream k).2.1 + 71 := rfl
    rw [h1, h2, ih]
    rfl

/-- The witness stream always deviates from its running baseline by exactly
71, which strictly exceeds the default variance ceiling 70. -/
theorem s5w_deviates : alwaysDeviates s5w 70 := by
  intro k
  have h1 : (calibStates s5w k).1 = (wStream k).2.1 :=
    congrArg Prod.fst (wStream_calibStates k)
  rw [h1, show s5w (k + 1) = (wStream k).2.1 + 71 from rfl]
  have h3 : (wStream k).2.1 - ((wStream k).2.1 + 71) = -71 := by ring
  rw [h3]
  decide

/-- Witness for C5 at a concrete input: the default configuration against
the stream `s5w` (seed 1000, every loop reading 71 above the running
baseline): calibration takes all 40 readings and fails. -/
theorem witness_C5 :
    (tw5.getRange.isSome = true) ∧ (tw5.distance_threshold ≠ 0) ∧
      ((0 : Int) ≤ tw5.max_baseline_variance) ∧
      ((1 : Int) ≤ tw5.max_baseline_reads) ∧
      (tw5.max_baseline_variance < s5w 0) ∧
      (tw5.calibrateReads s5w = tw5.max_baseline_reads ∧
        (tw5.calibrate s5w).is_calibrated = false) :=
  ⟨by decide, by decide, by decide, by decide, by decide,
    claim_C5 tw5 s5w (by decide) (by decide) (by decide) (by decide)
      (by decide) s5w_deviates⟩
